import Mathlib

/-!
Shallow embedding of the tunnel process supervisor in
`dot_scripts/executable_tunnel-manager.py` (class `TunnelManager`).

The supervisor manipulates three kinds of external state:
* the OS process table (queried via `os.kill(pid, 0)`, `ps -p PID -o comm=`
  and `pgrep -f PATTERN`, mutated via `SIGTERM`/`SIGKILL` and `Popen`),
* per-tunnel registry records (`/tmp/cloudflared-<name>.pid`),
* per-tunnel log files (`/tmp/cloudflared-<name>.log`),
together with the existence of config files (`~/.cloudflared/<name>.yml`).

We model this state as an explicit `World` value threaded through each
operation, and record the operation's observable actions (signals sent,
sleeps, file truncations/writes/deletions, spawns, warnings) as a list of
events, so that ordering and frame properties are provable.

Timing during `stop_tunnel`'s poll loop is external: whether the signalled
process still exists `t` time-units after `SIGTERM` was sent is supplied by
an oracle `aliveAt : Nat → Bool`.  Likewise `start_tunnel`'s spawn outcome
(the OS-chosen pid, and whether `process.poll()` still returns `None` after
the 2-unit settle sleep) is supplied by a `SpawnEnv`.
-/

namespace TunnelManager

/-- One live OS process: its pid, its command name (what
`ps -p PID -o comm=` prints) and its full command line (what
`pgrep -f` matches against). -/
structure Proc where
  pid : Nat
  comm : String
  cmdline : String
deriving DecidableEq, Repr

/-- The external state visible to the supervisor.  `procs` is the table of
live processes, in the order `pgrep` enumerates them; `pidFiles` maps a
tunnel name to the text content of `/tmp/cloudflared-<name>.pid`;
`logFiles` maps a tunnel name to the lines of
`/tmp/cloudflared-<name>.log`; `configFiles` is the set of filesystem
paths at which a config file exists. -/
structure World where
  procs : List Proc
  pidFiles : List (String × String)
  logFiles : List (String × List String)
  configFiles : List String
deriving DecidableEq, Repr

/-- Observable actions performed by the supervisor's operations. -/
inductive Ev where
  /-- deletion of `/tmp/cloudflared-<name>.pid` (`pid_file.unlink()`) -/
  | unlinkRecord (name : String)
  /-- opening `/tmp/cloudflared-<name>.log` with mode `w`, truncating it -/
  | truncateLog (name : String)
  /-- `subprocess.Popen(cmd, stdout=log, stderr=STDOUT, start_new_session=True)`:
  detached spawn with combined output redirected to the log file -/
  | spawnProc (cmd : List String) (pid : Nat)
  /-- writing `content` to `/tmp/cloudflared-<name>.pid` -/
  | writeRecord (name : String) (content : String)
  /-- `time.sleep(n)` -/
  | sleepFor (n : Nat)
  /-- `os.kill(pid, SIGTERM)`; `delivered` is false when the call raised
  `ProcessLookupError` because the process was already gone -/
  | sigTerm (pid : Nat) (delivered : Bool)
  /-- `os.kill(pid, 0)` inside the stop poll loop, with its outcome -/
  | checkAlive (pid : Nat) (alive : Bool)
  /-- `os.kill(pid, SIGKILL)`; `delivered` as for `sigTerm` -/
  | sigKill (pid : Nat) (delivered : Bool)
  /-- the "Warning: No config file found" message of `start_tunnel` -/
  | warnNoConfig (name : String)
  /-- printing the log file location (both the success and the failure
  branch of `start_tunnel` do this) -/
  | reportLog (name : String)
deriving DecidableEq, Repr

/-- Drop everything in `hay` up to and including the first occurrence of
`pat`; `none` when `pat` does not occur. -/
def dropThrough : List Char → List Char → Option (List Char)
  | [], pat => if pat.isEmpty then some [] else none
  | c :: t, pat =>
    if pat.isPrefixOf (c :: t) then some ((c :: t).drop pat.length)
    else dropThrough t pat

/-- Whether `needle` occurs as a contiguous substring of `hay`
(Python's `needle in hay`). -/
def containsStr (hay needle : String) : Bool :=
  (dropThrough hay.data needle.data).isSome

/-- Whether `os.kill(pid, 0)` succeeds, i.e. a process with this pid
exists. -/
def alive (w : World) (pid : Nat) : Bool :=
  w.procs.any (fun p => p.pid == pid)

/-- The check `'cloudflared' in result.stdout` after
`ps -p PID -o comm=`: the process's command name contains the external
tool's binary name. -/
def psCommCheck (w : World) (pid : Nat) : Bool :=
  match w.procs.find? (fun p => p.pid == pid) with
  | some p => containsStr p.comm "cloudflared"
  | none => false

/-- Whether `hay` matches the regular expression
`pats[0].*pats[1].* ... .*pats[k]` (the patterns occur in order,
arbitrarily separated).  Committing to the first occurrence of each
pattern is complete for this pattern shape. -/
def matchesSeq (hay : List Char) : List (List Char) → Bool
  | [] => true
  | pat :: rest =>
    match dropThrough hay pat with
    | some r => matchesSeq r rest
    | none => false

/-- Whether `pgrep -f "cloudflared.*tunnel.*run.*<name>"` matches this
command line.  Tunnel names are treated as regex-literal. -/
def pgrepMatch (cmdline name : String) : Bool :=
  matchesSeq cmdline.data ["cloudflared".data, "tunnel".data, "run".data, name.data]

/-- The pid list `pgrep -f "cloudflared.*tunnel.*run.*<name>"` prints,
in process-table order. -/
def pgrepScan (w : World) (name : String) : List Nat :=
  (w.procs.filter (fun p => pgrepMatch p.cmdline name)).map Proc.pid

/-- Delete the registry record for `name` (`pid_file.unlink()`); a no-op
when absent. -/
def removeRecord (w : World) (name : String) : World :=
  { w with pidFiles := w.pidFiles.filter (fun r => !(r.1 == name)) }

/-- Persist `content` as the registry record for `name`, overwriting any
prior record. -/
def writeRecordF (w : World) (name content : String) : World :=
  { w with pidFiles := (name, content) :: (w.pidFiles.filter (fun r => !(r.1 == name))) }

/-- Truncate the log file for `name` (`open(log_file, 'w')`). -/
def truncateLogF (w : World) (name : String) : World :=
  { w with logFiles := (name, []) :: (w.logFiles.filter (fun r => !(r.1 == name))) }

/-- Remove pid from the process table (the process has exited). -/
def removeProc (w : World) (pid : Nat) : World :=
  { w with procs := w.procs.filter (fun p => !(p.pid == pid)) }

/-- Add a process to the table (a successful spawn). -/
def addProc (w : World) (p : Proc) : World :=
  { w with procs := w.procs ++ [p] }

/-- Characters stripped by Python's `str.strip()`. -/
def isWsChar (c : Char) : Bool :=
  c == ' ' || c == '\t' || c == '\n' || c == '\r' || c == '\x0b' || c == '\x0c'

/-- Strip leading and trailing whitespace. -/
def trimChars (l : List Char) : List Char :=
  ((l.dropWhile isWsChar).reverse.dropWhile isWsChar).reverse

/-- Numeric value of a digit string. -/
def digitsToNat (l : List Char) : Nat :=
  l.foldl (fun n c => n * 10 + (c.toNat - '0'.toNat)) 0

/-- The parse `int(f.read().strip())` of a registry record's content:
`some pid` when the stripped content is a nonempty digit string, `none`
when it raises `ValueError`.  (Records written by the supervisor itself
are always plain decimal digits.) -/
def parsePid (s : String) : Option Nat :=
  let t := trimChars s.data
  if !t.isEmpty && t.all Char.isDigit then some (digitsToNat t) else none

/-- The fallback scan of `is_tunnel_running` (lines 118-130): take the
first pid `pgrep -f "cloudflared.*tunnel.*run.*<name>"` reports, if any.
`evs` carries the events of the registry tier. -/
def fallbackScan (w : World) (name : String) (evs : List Ev) :
    (Bool × Option Nat) × World × List Ev :=
  match pgrepScan w name with
  | p :: _ => ((true, some p), w, evs)
  | [] => ((false, none), w, evs)

/-- `TunnelManager.is_tunnel_running` (lines 85-132): read the registry
record; if it parses and the pid is alive and its command name contains
`cloudflared`, report running with that pid; if the record is present but
any of those checks fails, delete it; in every non-pass case fall back to
the `pgrep` scan. -/
def is_tunnel_running (w : World) (name : String) :
    (Bool × Option Nat) × World × List Ev :=
  match w.pidFiles.lookup name with
  | some content =>
    match parsePid content with
    | some pid =>
      if alive w pid then
        if psCommCheck w pid then ((true, some pid), w, [])
        else fallbackScan (removeRecord w name) name [Ev.unlinkRecord name]
      else fallbackScan (removeRecord w name) name [Ev.unlinkRecord name]
    | none => fallbackScan (removeRecord w name) name [Ev.unlinkRecord name]
  | none => fallbackScan w name []

/-- Path of the name-derived default config file,
`~/.cloudflared/<name>.yml`. -/
def defaultConfigPath (name : String) : String :=
  "~/.cloudflared/" ++ name ++ ".yml"

/-- The default-config branch of `start_tunnel` (lines 145-151), entered
when no config path was supplied (or the supplied string is empty, which
Python's `if not config_file:` treats the same way): use
`~/.cloudflared/<name>.yml` if it exists, otherwise warn and proceed with
no config.  Returns (resolved config, warned, performed default lookup);
the last flag records that `default_config.exists()` was evaluated. -/
def resolveDefault (w : World) (name : String) : Option String × Bool × Bool :=
  let d := defaultConfigPath name
  if w.configFiles.contains d then (some d, false, true)
  else (none, true, true)

/-- Config resolution of `start_tunnel` (lines 144-151). -/
def resolveConfig (w : World) (name : String) (cfg : Option String) :
    Option String × Bool × Bool :=
  match cfg with
  | some c => if c.isEmpty then resolveDefault w name else (some c, false, false)
  | none => resolveDefault w name

/-- Command construction of `start_tunnel` (lines 153-157): the
`--config` flag is added only when the resolved config string is truthy
and the path exists. -/
def buildCmd (w : World) (name : String) (cfg : Option String) : List String :=
  ["cloudflared", "tunnel"] ++
  (match cfg with
   | some c => if !c.isEmpty && w.configFiles.contains c then ["--config", c] else []
   | none => []) ++
  ["run", name]

/-- Outcome of the spawn attempt, supplied by the OS: `res = none` models
`subprocess.Popen` raising, `res = some pid` a spawn with that pid;
`survives` is whether `process.poll()` is still `None` after the 2-unit
settle sleep. -/
structure SpawnEnv where
  res : Option Nat
  survives : Bool
deriving DecidableEq, Repr

/-- The part of `TunnelManager.start_tunnel` after the already-running
check (lines 141-191), acting on the world the probe returned: resolve
the config, truncate the log, spawn detached, record the pid, sleep the
2-unit settle interval, and re-check survival; on death within the settle
window delete the record and report the log location. -/
def startAfterProbe (w1 : World) (name : String) (cfg : Option String)
    (env : SpawnEnv) : Bool × World × List Ev :=
  let rc := resolveConfig w1 name cfg
  let warnEvs : List Ev := if rc.2.1 then [Ev.warnNoConfig name] else []
  let cmd := buildCmd w1 name rc.1
  match env.res with
  | none =>
    (false, truncateLogF w1 name, warnEvs ++ [Ev.truncateLog name])
  | some pid =>
    let w2 := writeRecordF (truncateLogF w1 name) name (toString pid)
    let evs := warnEvs ++
      [Ev.truncateLog name, Ev.spawnProc cmd pid,
       Ev.writeRecord name (toString pid), Ev.sleepFor 2, Ev.reportLog name]
    if env.survives then
      (true, addProc w2 ⟨pid, "cloudflared", String.intercalate " " cmd⟩, evs)
    else
      (false, removeRecord w2 name, evs)

/-- `TunnelManager.start_tunnel` (lines 134-191): probe first; if running,
fail (already running) with no further action; otherwise proceed with the
spawn sequence. -/
def start_tunnel (w : World) (name : String) (cfg : Option String)
    (env : SpawnEnv) : Bool × World × List Ev :=
  let pr := is_tunnel_running w name
  if pr.1.1 then (false, pr.2.1, pr.2.2)
  else
    let s := startAfterProbe pr.2.1 name cfg env
    (s.1, s.2.1, pr.2.2 ++ s.2.2)

/-- The wait loop of `stop_tunnel` (lines 206-212): up to `fuel` existence
checks starting at time `i`; each check that finds the process alive is
followed by a one-unit sleep; a check that finds it gone breaks the loop.
Returns the events and whether the loop ran to exhaustion (the `else`
branch of Python's `for`, which escalates). -/
def pollLoop (aliveAt : Nat → Bool) (pid : Nat) : Nat → Nat → List Ev × Bool
  | _, 0 => ([], true)
  | i, fuel + 1 =>
    if aliveAt i then
      let r := pollLoop aliveAt pid (i + 1) fuel
      (Ev.checkAlive pid true :: Ev.sleepFor 1 :: r.1, r.2)
    else
      ([Ev.checkAlive pid false], false)

/-- The part of `TunnelManager.stop_tunnel` after the probe reported
running with `pid` (lines 201-235), acting on the world the probe
returned.  `aliveAt t` is whether the target still exists `t` time-units
after the `SIGTERM` send.  If `SIGTERM` raises `ProcessLookupError`
(target already gone) the handler at lines 229-235 cleans up and
succeeds; otherwise the bounded poll runs, escalating to `SIGKILL` plus
one more sleep (the sleep is skipped when `SIGKILL` itself raises).  The
registry record is removed in every path, and the target pid has left the
process table by the time the operation returns. -/
def stopAfterProbe (w1 : World) (name : String) (pid : Nat)
    (aliveAt : Nat → Bool) : Bool × World × List Ev :=
  let cleanupEvs : List Ev :=
    if (w1.pidFiles.lookup name).isSome then [Ev.unlinkRecord name] else []
  let wEnd := removeRecord (removeProc w1 pid) name
  if aliveAt 0 then
    let lp := pollLoop aliveAt pid 0 10
    let killEvs : List Ev :=
      if lp.2 then
        if aliveAt 10 then [Ev.sigKill pid true, Ev.sleepFor 1]
        else [Ev.sigKill pid false]
      else []
    (true, wEnd, Ev.sigTerm pid true :: (lp.1 ++ killEvs ++ cleanupEvs))
  else
    (true, wEnd, Ev.sigTerm pid false :: cleanupEvs)

/-- `TunnelManager.stop_tunnel` (lines 193-238): probe first; if not
running, fail with no further action; otherwise run the graceful-then-
forced termination sequence.  (The probe never reports running without a
pid; if it somehow did, `os.kill(None, SIGTERM)` would raise `TypeError`,
caught by the generic handler which returns `False` without cleanup.) -/
def stop_tunnel (w : World) (name : String) (aliveAt : Nat → Bool) :
    Bool × World × List Ev :=
  let pr := is_tunnel_running w name
  match pr.1 with
  | (true, some pid) =>
    let s := stopAfterProbe pr.2.1 name pid aliveAt
    (s.1, s.2.1, pr.2.2 ++ s.2.2)
  | _ => (false, pr.2.1, pr.2.2)

/-- `TunnelManager.restart_tunnel` (lines 240-252): if the probe reports
running, stop (propagating a stop failure as the restart's failure), then
pause 2 time-units, then start; otherwise start directly. -/
def restart_tunnel (w : World) (name : String) (cfg : Option String)
    (aliveAt : Nat → Bool) (env : SpawnEnv) : Bool × World × List Ev :=
  let pr := is_tunnel_running w name
  if pr.1.1 then
    let s := stop_tunnel pr.2.1 name aliveAt
    if s.1 then
      let st := start_tunnel s.2.1 name cfg env
      (st.1, st.2.1, pr.2.2 ++ s.2.2 ++ [Ev.sleepFor 2] ++ st.2.2)
    else (false, s.2.1, pr.2.2 ++ s.2.2)
  else
    let st := start_tunnel pr.2.1 name cfg env
    (st.1, st.2.1, pr.2.2 ++ st.2.2)

/-- The last `n` elements of a list (what `tail -n` prints). -/
def lastN (l : List String) (n : Nat) : List String :=
  l.drop (l.length - n)

/-- `TunnelManager.tail_logs` (lines 287-298): a passive view.  Returns
`none` (the log-not-found warning path) when the log file does not exist,
otherwise the most recent `n` lines; the world is returned unchanged. -/
def tail_logs (w : World) (name : String) (n : Nat) :
    Option (List String) × World :=
  match w.logFiles.lookup name with
  | none => (none, w)
  | some ls => (some (lastN ls n), w)

/-- Whether an event is one of the stop loop's existence checks. -/
def isCheckEv : Ev → Bool
  | Ev.checkAlive _ _ => true
  | _ => false

/-- Number of existence checks in an event trace. -/
def countChecks (evs : List Ev) : Nat := evs.countP isCheckEv

/-! Concrete worlds, spawn environments and liveness oracles used by the
witnesses and counterexamples below. -/

/-- A world whose registry record passes every tier-1 check. -/
def wPass : World :=
  ⟨[⟨77, "cloudflared", "cloudflared tunnel run demo"⟩], [("demo", "77")], [], []⟩

/-- A world with a non-numeric registry record and no matching process. -/
def wMal : World := ⟨[], [("demo", "bogus")], [], []⟩

/-- A world whose registry record's pid was recycled by an unrelated
process. -/
def wComm : World := ⟨[⟨42, "bash", "bash"⟩], [("demo", "42")], [], []⟩

/-- A world with a malformed registry record for `demo` but a live
process whose command line matches the fallback pattern. -/
def wStaleRun : World :=
  ⟨[⟨77, "cloudflared", "cloudflared tunnel run demo"⟩],
   [("demo", "bogus")], [], []⟩

/-- An empty world: no processes, no records, no logs, no configs. -/
def wEmpty : World := ⟨[], [], [], []⟩

/-- A world with only the default config file for `demo`. -/
def wCfg : World := ⟨[], [], [], [defaultConfigPath "demo"]⟩

/-- A spawn environment: the OS assigns pid 90 and the process survives
the settle window. -/
def envUp : SpawnEnv := ⟨some 90, true⟩

/-- A spawn environment: pid 91, but the process dies within the settle
window. -/
def envDie : SpawnEnv := ⟨some 91, false⟩

/-- A liveness oracle: the stopped process exits three time-units after
the graceful-termination signal. -/
def aliveUntil3 : Nat → Bool := fun t => decide (t < 3)

/-- A liveness oracle: the process never exits on its own. -/
def aliveAlways : Nat → Bool := fun _ => true

/-- A world with an existing log file for `demo` and nothing else. -/
def wLog : World := ⟨[], [], [("demo", ["a", "b", "c"])], []⟩

/-! ## Helper lemmas -/

theorem lookup_filter_self {β : Type} (l : List (String × β)) (name : String) :
    (l.filter (fun r => !(r.1 == name))).lookup name = none := by
  induction l with
  | nil => rfl
  | cons p t ih =>
    by_cases hp : p.1 = name
    · simpa [List.filter, hp] using ih
    · have hb : (p.1 == name) = false := by simpa using hp
      have hb' : (name == p.1) = false := by
        simp only [beq_eq_false_iff_ne, ne_eq]
        exact fun h => hp h.symm
      simp [List.filter, List.lookup, hb, hb', ih]

theorem removeRecord_lookup (w : World) (name : String) :
    ((removeRecord w name).pidFiles).lookup name = none :=
  lookup_filter_self _ _

theorem pgrepScan_removeRecord (w : World) (name n : String) :
    pgrepScan (removeRecord w name) n = pgrepScan w n := rfl

/-! Per-branch equations for the probe. -/

theorem probe_eq_pass {w : World} {name c : String} {pid : Nat}
    (h1 : w.pidFiles.lookup name = some c) (h2 : parsePid c = some pid)
    (h3 : alive w pid = true) (h4 : psCommCheck w pid = true) :
    is_tunnel_running w name = ((true, some pid), w, []) := by
  simp [is_tunnel_running, h1, h2, h3, h4]

theorem probe_eq_malformed {w : World} {name c : String}
    (h1 : w.pidFiles.lookup name = some c) (h2 : parsePid c = none) :
    is_tunnel_running w name
      = fallbackScan (removeRecord w name) name [Ev.unlinkRecord name] := by
  simp [is_tunnel_running, h1, h2]

theorem probe_eq_dead {w : World} {name c : String} {pid : Nat}
    (h1 : w.pidFiles.lookup name = some c) (h2 : parsePid c = some pid)
    (h3 : alive w pid = false) :
    is_tunnel_running w name
      = fallbackScan (removeRecord w name) name [Ev.unlinkRecord name] := by
  simp [is_tunnel_running, h1, h2, h3]

theorem probe_eq_badComm {w : World} {name c : String} {pid : Nat}
    (h1 : w.pidFiles.lookup name = some c) (h2 : parsePid c = some pid)
    (h3 : alive w pid = true) (h4 : psCommCheck w pid = false) :
    is_tunnel_running w name
      = fallbackScan (removeRecord w name) name [Ev.unlinkRecord name] := by
  simp [is_tunnel_running, h1, h2, h3, h4]

theorem probe_eq_noRecord {w : World} {name : String}
    (h1 : w.pidFiles.lookup name = none) :
    is_tunnel_running w name = fallbackScan w name [] := by
  simp [is_tunnel_running, h1]

theorem fallbackScan_eq_hit {w : World} {name : String} {p : Nat} {ps : List Nat}
    (h : pgrepScan w name = p :: ps) (evs : List Ev) :
    fallbackScan w name evs = ((true, some p), w, evs) := by
  simp [fallbackScan, h]

theorem fallbackScan_eq_miss {w : World} {name : String}
    (h : pgrepScan w name = []) (evs : List Ev) :
    fallbackScan w name evs = ((false, none), w, evs) := by
  simp [fallbackScan, h]

/-- Case-analysis principle for the probe: either the registry tier
passed (no change, no events), or the registry record was removed and
the fallback scan decided the report, or there was no record and the
fallback scan decided the report with no events. -/
theorem is_tunnel_running_elim (w : World) (name : String) :
    (∃ pid, is_tunnel_running w name = ((true, some pid), w, []))
    ∨ is_tunnel_running w name
        = fallbackScan (removeRecord w name) name [Ev.unlinkRecord name]
    ∨ is_tunnel_running w name = fallbackScan w name [] := by
  rcases h1 : w.pidFiles.lookup name with _ | c
  · exact Or.inr (Or.inr (probe_eq_noRecord h1))
  · rcases h2 : parsePid c with _ | pid
    · exact Or.inr (Or.inl (probe_eq_malformed h1 h2))
    · by_cases h3 : alive w pid = true
      · by_cases h4 : psCommCheck w pid = true
        · exact Or.inl ⟨pid, probe_eq_pass h1 h2 h3 h4⟩
        · exact Or.inr (Or.inl
            (probe_eq_badComm h1 h2 h3 (Bool.not_eq_true _ ▸ h4)))
      · exact Or.inr (Or.inl
          (probe_eq_dead h1 h2 (Bool.not_eq_true _ ▸ h3)))

/-- The probe either leaves the world unchanged or removes exactly the
record for `name`, and correspondingly reports no event or one deletion
event. -/
theorem is_tunnel_running_frame (w : World) (name : String) :
    ((is_tunnel_running w name).2.1 = w ∧ (is_tunnel_running w name).2.2 = [])
    ∨ ((is_tunnel_running w name).2.1 = removeRecord w name
       ∧ (is_tunnel_running w name).2.2 = [Ev.unlinkRecord name]) := by
  rcases is_tunnel_running_elim w name with ⟨pid, he⟩ | he | he
  · exact Or.inl (by rw [he]; exact ⟨rfl, rfl⟩)
  · rcases h5 : pgrepScan (removeRecord w name) name with _ | ⟨p, ps⟩
    · rw [he, fallbackScan_eq_miss h5]; exact Or.inr ⟨rfl, rfl⟩
    · rw [he, fallbackScan_eq_hit h5]; exact Or.inr ⟨rfl, rfl⟩
  · rcases h5 : pgrepScan w name with _ | ⟨p, ps⟩
    · rw [he, fallbackScan_eq_miss h5]; exact Or.inl ⟨rfl, rfl⟩
    · rw [he, fallbackScan_eq_hit h5]; exact Or.inl ⟨rfl, rfl⟩

/-- The probe's report is either running-with-a-pid or not-running-with-
none. -/
theorem is_tunnel_running_shape (w : World) (name : String) :
    (∃ p, (is_tunnel_running w name).1 = (true, some p))
    ∨ (is_tunnel_running w name).1 = (false, none) := by
  rcases is_tunnel_running_elim w name with ⟨pid, he⟩ | he | he
  · exact Or.inl ⟨pid, by rw [he]⟩
  · rcases h5 : pgrepScan (removeRecord w name) name with _ | ⟨p, ps⟩
    · rw [he, fallbackScan_eq_miss h5]; exact Or.inr rfl
    · rw [he, fallbackScan_eq_hit h5]; exact Or.inl ⟨p, rfl⟩
  · rcases h5 : pgrepScan w name with _ | ⟨p, ps⟩
    · rw [he, fallbackScan_eq_miss h5]; exact Or.inr rfl
    · rw [he, fallbackScan_eq_hit h5]; exact Or.inl ⟨p, rfl⟩

/-- Probing the world the probe returned reproduces the same report,
with no further healing. -/
theorem is_tunnel_running_stable (w : World) (name : String) :
    is_tunnel_running ((is_tunnel_running w name).2.1) name
      = ((is_tunnel_running w name).1, (is_tunnel_running w name).2.1, []) := by
  rcases h1 : w.pidFiles.lookup name with _ | c
  · have he := @probe_eq_noRecord w name h1
    rcases h5 : pgrepScan w name with _ | ⟨p, ps⟩
    · rw [he, fallbackScan_eq_miss h5]
      rw [he, fallbackScan_eq_miss h5]
    · rw [he, fallbackScan_eq_hit h5]
      rw [he, fallbackScan_eq_hit h5]
  · have hstep : is_tunnel_running w name = ((true, some ((parsePid c).getD 0)), w, [])
        ∨ is_tunnel_running w name
            = fallbackScan (removeRecord w name) name [Ev.unlinkRecord name] := by
      rcases h2 : parsePid c with _ | pid
      · exact Or.inr (probe_eq_malformed h1 h2)
      · by_cases h3 : alive w pid = true
        · by_cases h4 : psCommCheck w pid = true
          · exact Or.inl (by rw [probe_eq_pass h1 h2 h3 h4]; rfl)
          · exact Or.inr (probe_eq_badComm h1 h2 h3 (Bool.not_eq_true _ ▸ h4))
        · exact Or.inr (probe_eq_dead h1 h2 (Bool.not_eq_true _ ▸ h3))
    rcases hstep with he | he
    · rw [he]
      exact he
    · have hrm : (removeRecord w name).pidFiles.lookup name = none :=
        removeRecord_lookup w name
      have hsc : pgrepScan (removeRecord w name) name = pgrepScan w name := rfl
      rcases h5 : pgrepScan w name with _ | ⟨p, ps⟩
      · rw [he, fallbackScan_eq_miss (by rw [hsc, h5])]
        rw [probe_eq_noRecord hrm, fallbackScan_eq_miss (by rw [hsc, h5])]
      · rw [he, fallbackScan_eq_hit (by rw [hsc, h5])]
        rw [probe_eq_noRecord hrm, fallbackScan_eq_hit (by rw [hsc, h5])]

/-! ## C1: the two-tier liveness probe -/

/-- C1: for every tunnel name, the liveness probe follows the two-tier
algorithm in order, first success wins: (1) when the registry record is
present, parses, the pid exists (zero-effect signal) and the process's
command name contains the external tool's binary name, return
`(true, pid)` with no changes; (2) when the record is present but any
check fails, delete the record and continue to (3) the fallback scan over
all OS processes for a command line matching
`cloudflared.*tunnel.*run.*<name>`, returning `(true, firstMatch)` when
a match exists, else (4) `(false, none)`. -/
theorem is_tunnel_running_two_tier (w : World) (name : String) :
    (∀ c pid, w.pidFiles.lookup name = some c → parsePid c = some pid →
      alive w pid = true → psCommCheck w pid = true →
      is_tunnel_running w name = ((true, some pid), w, []))
    ∧ (∀ c, w.pidFiles.lookup name = some c →
      (∀ pid, parsePid c = some pid → (alive w pid && psCommCheck w pid) = false) →
      (is_tunnel_running w name).2.1 = removeRecord w name
      ∧ (is_tunnel_running w name).2.2 = [Ev.unlinkRecord name]
      ∧ (is_tunnel_running w name).1 =
        (match pgrepScan w name with
         | p :: _ => (true, some p)
         | [] => (false, none)))
    ∧ (w.pidFiles.lookup name = none →
      is_tunnel_running w name =
        ((match pgrepScan w name with
          | p :: _ => (true, some p)
          | [] => (false, none)), w, [])) := by
  refine ⟨?_, ?_, ?_⟩
  · intro c pid h1 h2 h3 h4
    exact probe_eq_pass h1 h2 h3 h4
  · intro c h1 h2
    have he : is_tunnel_running w name
        = fallbackScan (removeRecord w name) name [Ev.unlinkRecord name] := by
      rcases h3 : parsePid c with _ | pid
      · exact probe_eq_malformed h1 h3
      · have h5 := h2 pid h3
        by_cases ha : alive w pid = true
        · have hc : psCommCheck w pid = false := by
            rcases Bool.and_eq_false_iff.mp h5 with h | h
            · exact absurd h (by simp [ha])
            · exact h
          exact probe_eq_badComm h1 h3 ha hc
        · exact probe_eq_dead h1 h3 (Bool.not_eq_true _ ▸ ha)
    have hsc : pgrepScan (removeRecord w name) name = pgrepScan w name := rfl
    rcases h4 : pgrepScan w name with _ | ⟨p, ps⟩
    · rw [he, fallbackScan_eq_miss (by rw [hsc, h4])]
      exact ⟨rfl, rfl, rfl⟩
    · rw [he, fallbackScan_eq_hit (by rw [hsc, h4])]
      exact ⟨rfl, rfl, rfl⟩
  · intro h1
    rcases h4 : pgrepScan w name with _ | ⟨p, ps⟩
    · rw [probe_eq_noRecord h1, fallbackScan_eq_miss h4]
    · rw [probe_eq_noRecord h1, fallbackScan_eq_hit h4]

/-- Witness for the two-tier probe theorem: the tier-1 pass at a concrete
world. -/
theorem is_tunnel_running_two_tier_witness :
    wPass.pidFiles.lookup "demo" = some "77"
    ∧ parsePid "77" = some 77
    ∧ alive wPass 77 = true
    ∧ psCommCheck wPass 77 = true
    ∧ is_tunnel_running wPass "demo" = ((true, some 77), wPass, []) :=
  ⟨rfl, rfl, rfl, rfl,
   (is_tunnel_running_two_tier wPass "demo").1 "77" 77 rfl rfl rfl rfl⟩

/-! ## C5: malformed registry record self-heals -/

/-- C5: when the registry record for `name` is malformed (does not parse
as a pid) and the fallback scan finds no match, the probe reports
not-running, the malformed record is removed as a side effect, and no
hard failure is surfaced (the probe returns normally). -/
theorem probe_malformed_selfheal (w : World) (name c : String)
    (h1 : w.pidFiles.lookup name = some c) (h2 : parsePid c = none)
    (h3 : pgrepScan w name = []) :
    is_tunnel_running w name
      = ((false, none), removeRecord w name, [Ev.unlinkRecord name]) := by
  rw [probe_eq_malformed h1 h2,
    fallbackScan_eq_miss (by rw [pgrepScan_removeRecord, h3])]

/-- Witness for the malformed-record theorem at a concrete world. -/
theorem probe_malformed_selfheal_witness :
    wMal.pidFiles.lookup "demo" = some "bogus"
    ∧ parsePid "bogus" = none
    ∧ pgrepScan wMal "demo" = []
    ∧ is_tunnel_running wMal "demo"
        = ((false, none), removeRecord wMal "demo", [Ev.unlinkRecord "demo"]) :=
  ⟨rfl, rfl, rfl, probe_malformed_selfheal wMal "demo" "bogus" rfl rfl rfl⟩

/-! ## C6: recycled-pid registry record self-heals -/

/-- C6: when the registry record's pid resolves to a live process whose
command name does not contain the external tool's binary name, and the
fallback scan finds no match, the probe reports not-running and the stale
record is removed. -/
theorem probe_wrongComm_selfheal (w : World) (name c : String) (pid : Nat)
    (h1 : w.pidFiles.lookup name = some c) (h2 : parsePid c = some pid)
    (h3 : alive w pid = true) (h4 : psCommCheck w pid = false)
    (h5 : pgrepScan w name = []) :
    is_tunnel_running w name
      = ((false, none), removeRecord w name, [Ev.unlinkRecord name]) := by
  rw [probe_eq_badComm h1 h2 h3 h4,
    fallbackScan_eq_miss (by rw [pgrepScan_removeRecord, h5])]

/-- Witness for the recycled-pid theorem at a concrete world. -/
theorem probe_wrongComm_selfheal_witness :
    wComm.pidFiles.lookup "demo" = some "42"
    ∧ parsePid "42" = some 42
    ∧ alive wComm 42 = true
    ∧ psCommCheck wComm 42 = false
    ∧ is_tunnel_running wComm "demo"
        = ((false, none), removeRecord wComm "demo", [Ev.unlinkRecord "demo"]) :=
  ⟨rfl, rfl, rfl, rfl,
   probe_wrongComm_selfheal wComm "demo" "42" 42 rfl rfl rfl rfl rfl⟩

/-! ## C2: graceful-then-forced stop -/

theorem countChecks_nil : countChecks [] = 0 := rfl

theorem countChecks_cons_check (p : Nat) (b : Bool) (l : List Ev) :
    countChecks (Ev.checkAlive p b :: l) = countChecks l + 1 := by
  simp [countChecks, List.countP_cons, isCheckEv]

theorem countChecks_cons_other (e : Ev) (he : isCheckEv e = false)
    (l : List Ev) : countChecks (e :: l) = countChecks l := by
  simp [countChecks, List.countP_cons, he]

theorem countChecks_append (a b : List Ev) :
    countChecks (a ++ b) = countChecks a + countChecks b := by
  simp [countChecks, List.countP_append]

theorem isInfix_append_left {α : Type} {l s : List α} (pre : List α)
    (h : List.IsInfix l s) : List.IsInfix l (pre ++ s) := by
  obtain ⟨a, b, hab⟩ := h
  exact ⟨pre ++ a, b, by rw [← hab]; simp⟩

theorem pollLoop_count (a : Nat → Bool) (pid : Nat) :
    ∀ (fuel i : Nat), countChecks (pollLoop a pid i fuel).1 ≤ fuel := by
  intro fuel
  induction fuel with
  | zero => intro i; simp [pollLoop, countChecks_nil]
  | succ f ih =>
    intro i
    by_cases h0 : a i = true
    · have hf := ih (i + 1)
      simp only [pollLoop, h0, if_true]
      rw [countChecks_cons_check,
        countChecks_cons_other (Ev.sleepFor 1) rfl]
      omega
    · simp only [pollLoop, h0]
      rw [if_neg (by simp [h0])]
      simp [countChecks_cons_check, countChecks_nil]

theorem pollLoop_exhaust_of (a : Nat → Bool) (pid : Nat) :
    ∀ (fuel i : Nat), (∀ j, j < fuel → a (i + j) = true) →
      (pollLoop a pid i fuel).2 = true := by
  intro fuel
  induction fuel with
  | zero => intro i _; rfl
  | succ f ih =>
    intro i h
    have h0 : a i = true := by simpa using h 0 (Nat.succ_pos f)
    simp only [pollLoop, h0, if_true]
    exact ih (i + 1) (fun j hj => by
      have e : i + 1 + j = i + (j + 1) := by omega
      rw [e]
      exact h (j + 1) (by omega))

theorem stopAfterProbe_ok (w1 : World) (name : String) (pid : Nat)
    (a : Nat → Bool) : (stopAfterProbe w1 name pid a).1 = true := by
  by_cases h0 : a 0 = true <;> simp [stopAfterProbe, h0]

theorem stopAfterProbe_record (w1 : World) (name : String) (pid : Nat)
    (a : Nat → Bool) :
    ((stopAfterProbe w1 name pid a).2.1).pidFiles.lookup name = none := by
  by_cases h0 : a 0 = true <;>
    simp [stopAfterProbe, h0, removeRecord_lookup]

theorem stopAfterProbe_sigTerm (w1 : World) (name : String) (pid : Nat)
    (a : Nat → Bool) :
    Ev.sigTerm pid (a 0) ∈ (stopAfterProbe w1 name pid a).2.2 := by
  by_cases h0 : a 0 = true
  · rw [h0]; simp [stopAfterProbe, h0]
  · have h0' : a 0 = false := Bool.not_eq_true _ ▸ h0
    rw [h0']; simp [stopAfterProbe, h0']

theorem stopAfterProbe_countChecks (w1 : World) (name : String) (pid : Nat)
    (a : Nat → Bool) :
    countChecks (stopAfterProbe w1 name pid a).2.2 ≤ 10 := by
  by_cases h0 : a 0 = true
  · simp only [stopAfterProbe, h0, if_true]
    rw [countChecks_cons_other (Ev.sigTerm pid true) rfl,
      countChecks_append, countChecks_append]
    have h1 := pollLoop_count a pid 10 0
    have h2 : countChecks (if (pollLoop a pid 0 10).2 then
        if a 10 then [Ev.sigKill pid true, Ev.sleepFor 1]
        else [Ev.sigKill pid false] else []) = 0 := by
      split
      · split <;> rfl
      · rfl
    have h3 : countChecks (if (w1.pidFiles.lookup name).isSome then
        [Ev.unlinkRecord name] else []) = 0 := by
      split <;> rfl
    omega
  · simp only [stopAfterProbe, h0]
    rw [if_neg (by simp [h0]),
      countChecks_cons_other (Ev.sigTerm pid false) rfl]
    have h3 : countChecks (if (w1.pidFiles.lookup name).isSome then
        [Ev.unlinkRecord name] else []) = 0 := by
      split <;> rfl
    omega

theorem stopAfterProbe_kill (w1 : World) (name : String) (pid : Nat)
    (a : Nat → Bool) (h : ∀ i, i ≤ 10 → a i = true) :
    List.IsInfix [Ev.sigKill pid true, Ev.sleepFor 1]
      (stopAfterProbe w1 name pid a).2.2 := by
  have h0 : a 0 = true := h 0 (by omega)
  have h10 : a 10 = true := h 10 (le_refl _)
  have hex : (pollLoop a pid 0 10).2 = true :=
    pollLoop_exhaust_of a pid 10 0 (fun j hj => by
      simpa using h j (by omega))
  simp only [stopAfterProbe, h0, hex, h10, if_true]
  exact ⟨Ev.sigTerm pid true :: (pollLoop a pid 0 10).1,
    (if (w1.pidFiles.lookup name).isSome then [Ev.unlinkRecord name] else []),
    by simp⟩

theorem stopAfterProbe_noPoll (w1 : World) (name : String) (pid : Nat)
    (a : Nat → Bool) (h0 : a 0 = false) :
    countChecks (stopAfterProbe w1 name pid a).2.2 = 0 := by
  simp only [stopAfterProbe, h0]
  rw [if_neg (by simp [h0]),
    countChecks_cons_other (Ev.sigTerm pid false) rfl]
  split <;> rfl

theorem probe_evs_noChecks (w : World) (name : String) :
    countChecks (is_tunnel_running w name).2.2 = 0 := by
  rcases is_tunnel_running_frame w name with ⟨_, he⟩ | ⟨_, he⟩ <;> rw [he] <;> rfl

/-- C2: if the probe reports running with pid `p`, stopping the tunnel
sends the graceful-termination signal to `p` (delivered exactly when the
target still exists), polls its existence at one-unit intervals at most
10 times, escalates to the forced-termination signal followed by one more
one-unit interval when the target is still alive throughout the bound,
clears the registry record afterwards regardless of the signal path, and
reports success even when the target had already exited before the first
signal (no polls happen in that case). -/
theorem stop_tunnel_spec (w : World) (name : String) (p : Nat)
    (aliveAt : Nat → Bool)
    (h : (is_tunnel_running w name).1 = (true, some p)) :
    (stop_tunnel w name aliveAt).1 = true
    ∧ ((stop_tunnel w name aliveAt).2.1).pidFiles.lookup name = none
    ∧ Ev.sigTerm p (aliveAt 0) ∈ (stop_tunnel w name aliveAt).2.2
    ∧ countChecks (stop_tunnel w name aliveAt).2.2 ≤ 10
    ∧ ((∀ i, i ≤ 10 → aliveAt i = true) →
        List.IsInfix [Ev.sigKill p true, Ev.sleepFor 1]
          (stop_tunnel w name aliveAt).2.2)
    ∧ (aliveAt 0 = false → countChecks (stop_tunnel w name aliveAt).2.2 = 0) := by
  have hs : stop_tunnel w name aliveAt
      = ((stopAfterProbe (is_tunnel_running w name).2.1 name p aliveAt).1,
         (stopAfterProbe (is_tunnel_running w name).2.1 name p aliveAt).2.1,
         (is_tunnel_running w name).2.2
           ++ (stopAfterProbe (is_tunnel_running w name).2.1 name p aliveAt).2.2) := by
    simp only [stop_tunnel]
    rw [h]
  rw [hs]
  refine ⟨stopAfterProbe_ok _ _ _ _, stopAfterProbe_record _ _ _ _, ?_, ?_, ?_, ?_⟩
  · exact List.mem_append_right _ (stopAfterProbe_sigTerm _ _ _ _)
  · rw [countChecks_append, probe_evs_noChecks]
    have := stopAfterProbe_countChecks (is_tunnel_running w name).2.1 name p aliveAt
    omega
  · intro hAll
    exact isInfix_append_left _ (stopAfterProbe_kill _ _ _ _ hAll)
  · intro h0
    rw [countChecks_append, probe_evs_noChecks,
      stopAfterProbe_noPoll _ _ _ _ h0]

/-- Witness for the stop theorem: stopping the tier-1 running tunnel of
`wPass` when the target exits three time-units after the graceful
signal. -/
theorem stop_tunnel_spec_witness :
    (is_tunnel_running wPass "demo").1 = (true, some 77)
    ∧ (stop_tunnel wPass "demo" aliveUntil3).1 = true
    ∧ ((stop_tunnel wPass "demo" aliveUntil3).2.1).pidFiles.lookup "demo" = none := by
  have hspec := stop_tunnel_spec wPass "demo" 77 aliveUntil3 rfl
  exact ⟨rfl, hspec.1, hspec.2.1⟩

/-! ## C3 and C4: starting a tunnel -/

theorem lookup_cons_self {β : Type} (name : String) (v : β)
    (l : List (String × β)) : ((name, v) :: l).lookup name = some v := by
  simp [List.lookup]

theorem probe_configFiles (w : World) (name : String) :
    ((is_tunnel_running w name).2.1).configFiles = w.configFiles := by
  rcases is_tunnel_running_frame w name with ⟨he, _⟩ | ⟨he, _⟩ <;> rw [he] <;> rfl

theorem probe_procs (w : World) (name : String) :
    ((is_tunnel_running w name).2.1).procs = w.procs := by
  rcases is_tunnel_running_frame w name with ⟨he, _⟩ | ⟨he, _⟩ <;> rw [he] <;> rfl

theorem probe_logFiles (w : World) (name : String) :
    ((is_tunnel_running w name).2.1).logFiles = w.logFiles := by
  rcases is_tunnel_running_frame w name with ⟨he, _⟩ | ⟨he, _⟩ <;> rw [he] <;> rfl

theorem start_eq_running {w : World} {name : String} {cfg : Option String}
    {env : SpawnEnv} (h : (is_tunnel_running w name).1.1 = true) :
    start_tunnel w name cfg env
      = (false, (is_tunnel_running w name).2.1, (is_tunnel_running w name).2.2) := by
  simp only [start_tunnel]
  rw [if_pos h]

theorem start_eq_notRunning {w : World} {name : String} {cfg : Option String}
    {env : SpawnEnv} (h : (is_tunnel_running w name).1.1 = false) :
    start_tunnel w name cfg env
      = ((startAfterProbe (is_tunnel_running w name).2.1 name cfg env).1,
         (startAfterProbe (is_tunnel_running w name).2.1 name cfg env).2.1,
         (is_tunnel_running w name).2.2
           ++ (startAfterProbe (is_tunnel_running w name).2.1 name cfg env).2.2) := by
  simp only [start_tunnel]
  rw [if_neg (by simp [h])]

theorem startAfterProbe_trace (w1 : World) (name : String)
    (cfg : Option String) (env : SpawnEnv) (pid : Nat)
    (hsp : env.res = some pid) :
    (startAfterProbe w1 name cfg env).2.2
      = (if (resolveConfig w1 name cfg).2.1 then [Ev.warnNoConfig name] else [])
        ++ [Ev.truncateLog name,
            Ev.spawnProc (buildCmd w1 name (resolveConfig w1 name cfg).1) pid,
            Ev.writeRecord name (toString pid), Ev.sleepFor 2,
            Ev.reportLog name] := by
  simp only [startAfterProbe, hsp]
  by_cases hs : env.survives = true <;> simp [hs]

theorem startAfterProbe_log (w1 : World) (name : String)
    (cfg : Option String) (env : SpawnEnv) (pid : Nat)
    (hsp : env.res = some pid) :
    ((startAfterProbe w1 name cfg env).2.1).logFiles.lookup name = some [] := by
  simp only [startAfterProbe, hsp]
  by_cases hs : env.survives = true <;>
    simp [hs, addProc, removeRecord, writeRecordF, truncateLogF,
      lookup_cons_self]

theorem startAfterProbe_survives (w1 : World) (name : String)
    (cfg : Option String) (env : SpawnEnv) (pid : Nat)
    (hsp : env.res = some pid) (hs : env.survives = true) :
    (startAfterProbe w1 name cfg env).1 = true
    ∧ ((startAfterProbe w1 name cfg env).2.1).pidFiles.lookup name
        = some (toString pid) := by
  simp only [startAfterProbe, hsp, hs, if_true]
  exact ⟨trivial, lookup_cons_self _ _ _⟩

theorem startAfterProbe_dies (w1 : World) (name : String)
    (cfg : Option String) (env : SpawnEnv) (pid : Nat)
    (hsp : env.res = some pid) (hs : env.survives = false) :
    (startAfterProbe w1 name cfg env).1 = false
    ∧ ((startAfterProbe w1 name cfg env).2.1).pidFiles.lookup name = none
    ∧ Ev.reportLog name ∈ (startAfterProbe w1 name cfg env).2.2 := by
  simp only [startAfterProbe, hsp, hs]
  refine ⟨rfl, removeRecord_lookup _ _, ?_⟩
  simp

/-- C3: when the probe reports not-running and the spawn succeeds with
pid `pid`, start truncates the log file, spawns the external tool
detached with combined output into the log, records the registry entry
(the spawned pid) immediately — before the 2-unit settle sleep — and
re-checks liveness; if the process died within the settle window the
result is failure, the registry record is deleted, and the log location
is reported; on success the pid is recorded and reported. -/
theorem start_tunnel_spawn_spec (w : World) (name : String)
    (cfg : Option String) (env : SpawnEnv) (pid : Nat)
    (hnr : (is_tunnel_running w name).1.1 = false)
    (hsp : env.res = some pid) :
    (start_tunnel w name cfg env).2.2
      = (is_tunnel_running w name).2.2
        ++ ((if (resolveConfig (is_tunnel_running w name).2.1 name cfg).2.1
             then [Ev.warnNoConfig name] else [])
            ++ [Ev.truncateLog name,
                Ev.spawnProc (buildCmd (is_tunnel_running w name).2.1 name
                  (resolveConfig (is_tunnel_running w name).2.1 name cfg).1) pid,
                Ev.writeRecord name (toString pid), Ev.sleepFor 2,
                Ev.reportLog name])
    ∧ ((start_tunnel w name cfg env).2.1).logFiles.lookup name = some []
    ∧ (env.survives = true →
        (start_tunnel w name cfg env).1 = true
        ∧ ((start_tunnel w name cfg env).2.1).pidFiles.lookup name
            = some (toString pid))
    ∧ (env.survives = false →
        (start_tunnel w name cfg env).1 = false
        ∧ ((start_tunnel w name cfg env).2.1).pidFiles.lookup name = none
        ∧ Ev.reportLog name ∈ (start_tunnel w name cfg env).2.2) := by
  rw [start_eq_notRunning hnr]
  refine ⟨?_, startAfterProbe_log _ _ _ _ _ hsp, ?_, ?_⟩
  · rw [startAfterProbe_trace _ _ _ _ _ hsp]
  · intro hs
    exact startAfterProbe_survives _ _ _ _ _ hsp hs
  · intro hs
    obtain ⟨h1, h2, h3⟩ := startAfterProbe_dies _ name cfg _ pid hsp hs
    exact ⟨h1, h2, List.mem_append_right _ h3⟩

/-- Witness for the start theorem: starting `demo` in the empty world
with a surviving spawn. -/
theorem start_tunnel_spawn_spec_witness :
    (is_tunnel_running wEmpty "demo").1.1 = false
    ∧ envUp.res = some 90
    ∧ (start_tunnel wEmpty "demo" none envUp).1 = true
    ∧ ((start_tunnel wEmpty "demo" none envUp).2.1).pidFiles.lookup "demo"
        = some "90"
    ∧ ((start_tunnel wEmpty "demo" none envUp).2.1).logFiles.lookup "demo"
        = some [] := by
  have hspec := start_tunnel_spawn_spec wEmpty "demo" none envUp 90 rfl rfl
  exact ⟨rfl, rfl, (hspec.2.2.1 rfl).1, (hspec.2.2.1 rfl).2, hspec.2.1⟩

/-- C4 (amended): when the probe reports running, start fails, spawns
nothing, truncates no log, writes no record, and leaves the world exactly
as the probe left it: the process table and log files are untouched, and
the registry is unchanged except that the probe's self-healing may have
removed a stale record for this name. -/
theorem start_tunnel_already_running (w : World) (name : String)
    (cfg : Option String) (env : SpawnEnv)
    (h : (is_tunnel_running w name).1.1 = true) :
    (start_tunnel w name cfg env).1 = false
    ∧ (start_tunnel w name cfg env).2.1 = (is_tunnel_running w name).2.1
    ∧ ((start_tunnel w name cfg env).2.1).procs = w.procs
    ∧ ((start_tunnel w name cfg env).2.1).logFiles = w.logFiles
    ∧ (((start_tunnel w name cfg env).2.1).pidFiles = w.pidFiles
       ∨ ((start_tunnel w name cfg env).2.1).pidFiles
           = (removeRecord w name).pidFiles)
    ∧ (∀ cmd q, Ev.spawnProc cmd q ∉ (start_tunnel w name cfg env).2.2)
    ∧ (∀ s, Ev.truncateLog s ∉ (start_tunnel w name cfg env).2.2)
    ∧ (∀ s c, Ev.writeRecord s c ∉ (start_tunnel w name cfg env).2.2) := by
  rw [start_eq_running h]
  refine ⟨rfl, rfl, probe_procs w name, probe_logFiles w name, ?_, ?_, ?_, ?_⟩
  · rcases is_tunnel_running_frame w name with ⟨he, _⟩ | ⟨he, _⟩
    · exact Or.inl (by rw [he])
    · exact Or.inr (by rw [he])
  · intro cmd q
    rcases is_tunnel_running_frame w name with ⟨_, he⟩ | ⟨_, he⟩ <;>
      simp [he]
  · intro s
    rcases is_tunnel_running_frame w name with ⟨_, he⟩ | ⟨_, he⟩ <;>
      simp [he]
  · intro s c
    rcases is_tunnel_running_frame w name with ⟨_, he⟩ | ⟨_, he⟩ <;>
      simp [he]

/-- Witness for the amended already-running start theorem at the tier-1
running world. -/
theorem start_tunnel_already_running_witness :
    (is_tunnel_running wPass "demo").1.1 = true
    ∧ (start_tunnel wPass "demo" none envUp).1 = false
    ∧ (start_tunnel wPass "demo" none envUp).2.1 = wPass := by
  have hspec := start_tunnel_already_running wPass "demo" none envUp rfl
  exact ⟨rfl, hspec.1, hspec.2.1⟩

/-- Counterexample to C4 as stated: in `wStaleRun` the probe reports
running (via the fallback scan, pid 77), yet `start_tunnel` deletes the
registry record for `demo` — the record is not left as it was. -/
theorem start_tunnel_already_running_cex :
    (is_tunnel_running wStaleRun "demo").1 = (true, some 77)
    ∧ wStaleRun.pidFiles.lookup "demo" = some "bogus"
    ∧ (start_tunnel wStaleRun "demo" none envUp).1 = false
    ∧ ((start_tunnel wStaleRun "demo" none envUp).2.1).pidFiles.lookup "demo"
        = none :=
  ⟨rfl, rfl, rfl, rfl⟩

/-! ## C7: stop on a not-running tunnel -/

theorem probe_false_shape {w : World} {name : String}
    (h : (is_tunnel_running w name).1.1 = false) :
    (is_tunnel_running w name).1 = (false, none) := by
  rcases is_tunnel_running_shape w name with ⟨p, hp⟩ | hp
  · rw [hp] at h
    exact absurd h (by simp)
  · exact hp

theorem stop_eq_notRunning {w : World} {name : String} {aliveAt : Nat → Bool}
    (h : (is_tunnel_running w name).1.1 = false) :
    stop_tunnel w name aliveAt
      = (false, (is_tunnel_running w name).2.1, (is_tunnel_running w name).2.2) := by
  simp only [stop_tunnel]
  rw [probe_false_shape h]

/-- C7 (amended): stopping a tunnel whose probe reports not-running fails,
sends no signal, truncates no log and writes no record; the process table
and log files are untouched, and the registry is unchanged except that
the probe's self-healing may have removed a stale record for this name —
in particular, when no registry record for the name exists, the world is
returned completely unchanged with an empty event trace. -/
theorem stop_tunnel_not_running (w : World) (name : String)
    (aliveAt : Nat → Bool) (h : (is_tunnel_running w name).1.1 = false) :
    (stop_tunnel w name aliveAt).1 = false
    ∧ ((stop_tunnel w name aliveAt).2.1).logFiles = w.logFiles
    ∧ ((stop_tunnel w name aliveAt).2.1).procs = w.procs
    ∧ (((stop_tunnel w name aliveAt).2.1).pidFiles = w.pidFiles
       ∨ ((stop_tunnel w name aliveAt).2.1).pidFiles
           = (removeRecord w name).pidFiles)
    ∧ (∀ q b, Ev.sigTerm q b ∉ (stop_tunnel w name aliveAt).2.2)
    ∧ (∀ q b, Ev.sigKill q b ∉ (stop_tunnel w name aliveAt).2.2)
    ∧ (∀ s, Ev.truncateLog s ∉ (stop_tunnel w name aliveAt).2.2)
    ∧ (∀ s c, Ev.writeRecord s c ∉ (stop_tunnel w name aliveAt).2.2)
    ∧ (w.pidFiles.lookup name = none →
        (stop_tunnel w name aliveAt).2.1 = w
        ∧ (stop_tunnel w name aliveAt).2.2 = []) := by
  rw [stop_eq_notRunning h]
  refine ⟨rfl, probe_logFiles w name, probe_procs w name, ?_, ?_, ?_, ?_, ?_, ?_⟩
  · rcases is_tunnel_running_frame w name with ⟨he, _⟩ | ⟨he, _⟩
    · exact Or.inl (by rw [he])
    · exact Or.inr (by rw [he])
  · intro q b
    rcases is_tunnel_running_frame w name with ⟨_, he⟩ | ⟨_, he⟩ <;> simp [he]
  · intro q b
    rcases is_tunnel_running_frame w name with ⟨_, he⟩ | ⟨_, he⟩ <;> simp [he]
  · intro s
    rcases is_tunnel_running_frame w name with ⟨_, he⟩ | ⟨_, he⟩ <;> simp [he]
  · intro s c
    rcases is_tunnel_running_frame w name with ⟨_, he⟩ | ⟨_, he⟩ <;> simp [he]
  · intro hnone
    rcases h5 : pgrepScan w name with _ | ⟨p, ps⟩
    · rw [probe_eq_noRecord hnone, fallbackScan_eq_miss h5]
      exact ⟨rfl, rfl⟩
    · exfalso
      have hrun : (is_tunnel_running w name).1 = (true, some p) := by
        rw [probe_eq_noRecord hnone, fallbackScan_eq_hit h5]
      rw [hrun] at h
      simp at h

/-- Witness for the amended not-running stop theorem: stopping in the
empty world changes nothing. -/
theorem stop_tunnel_not_running_witness :
    (is_tunnel_running wEmpty "demo").1.1 = false
    ∧ wEmpty.pidFiles.lookup "demo" = none
    ∧ (stop_tunnel wEmpty "demo" aliveAlways).1 = false
    ∧ (stop_tunnel wEmpty "demo" aliveAlways).2.1 = wEmpty
    ∧ (stop_tunnel wEmpty "demo" aliveAlways).2.2 = [] := by
  have hspec := stop_tunnel_not_running wEmpty "demo" aliveAlways rfl
  have hlast := hspec.2.2.2.2.2.2.2.2 rfl
  exact ⟨rfl, rfl, hspec.1, hlast.1, hlast.2⟩

/-- Counterexample to C7 as stated: in `wMal` the probe reports
not-running and `stop_tunnel` fails accordingly, yet the malformed
registry record for `demo` has been deleted — a filesystem mutation
performed during the failing stop. -/
theorem stop_tunnel_not_running_cex :
    (is_tunnel_running wMal "demo").1.1 = false
    ∧ wMal.pidFiles.lookup "demo" = some "bogus"
    ∧ (stop_tunnel wMal "demo" aliveAlways).1 = false
    ∧ ((stop_tunnel wMal "demo" aliveAlways).2.1).pidFiles.lookup "demo"
        = none :=
  ⟨rfl, rfl, rfl, rfl⟩

/-! ## C8: restart -/

/-- C8: when the probe reports running, restart performs the stop (which
succeeds), pauses a fixed 2 time-units, then starts, returning the
start's outcome; when the probe reports not-running, restart is exactly a
plain start, with no pause. -/
theorem restart_tunnel_spec (w : World) (name : String) (cfg : Option String)
    (aliveAt : Nat → Bool) (env : SpawnEnv) :
    ((is_tunnel_running w name).1.1 = true →
      (stop_tunnel (is_tunnel_running w name).2.1 name aliveAt).1 = true
      ∧ restart_tunnel w name cfg aliveAt env
          = ((start_tunnel
                (stop_tunnel (is_tunnel_running w name).2.1 name aliveAt).2.1
                name cfg env).1,
             (start_tunnel
                (stop_tunnel (is_tunnel_running w name).2.1 name aliveAt).2.1
                name cfg env).2.1,
             (is_tunnel_running w name).2.2
               ++ (stop_tunnel (is_tunnel_running w name).2.1 name aliveAt).2.2
               ++ [Ev.sleepFor 2]
               ++ (start_tunnel
                    (stop_tunnel (is_tunnel_running w name).2.1 name aliveAt).2.1
                    name cfg env).2.2))
    ∧ ((is_tunnel_running w name).1.1 = false →
      restart_tunnel w name cfg aliveAt env = start_tunnel w name cfg env) := by
  constructor
  · intro h
    obtain ⟨p, hp⟩ : ∃ p, (is_tunnel_running w name).1 = (true, some p) := by
      rcases is_tunnel_running_shape w name with hs | hs
      · exact hs
      · rw [hs] at h
        exact absurd h (by simp)
    have hst1 : (is_tunnel_running ((is_tunnel_running w name).2.1) name).1
        = (true, some p) := by
      rw [is_tunnel_running_stable]
      exact hp
    have hstop : stop_tunnel (is_tunnel_running w name).2.1 name aliveAt
        = ((stopAfterProbe
              (is_tunnel_running ((is_tunnel_running w name).2.1) name).2.1
              name p aliveAt).1,
           (stopAfterProbe
              (is_tunnel_running ((is_tunnel_running w name).2.1) name).2.1
              name p aliveAt).2.1,
           (is_tunnel_running ((is_tunnel_running w name).2.1) name).2.2
             ++ (stopAfterProbe
                  (is_tunnel_running ((is_tunnel_running w name).2.1) name).2.1
                  name p aliveAt).2.2) := by
      simp only [stop_tunnel]
      rw [hst1]
    have hstop1 : (stop_tunnel (is_tunnel_running w name).2.1 name aliveAt).1
        = true := by
      rw [hstop]
      exact stopAfterProbe_ok _ _ _ _
    refine ⟨hstop1, ?_⟩
    simp only [restart_tunnel]
    rw [if_pos h, if_pos hstop1]
  · intro h
    have hw1 : is_tunnel_running ((is_tunnel_running w name).2.1) name
        = ((false, none), (is_tunnel_running w name).2.1, []) := by
      rw [is_tunnel_running_stable, probe_false_shape h]
    have hw1nr : (is_tunnel_running ((is_tunnel_running w name).2.1) name).1.1
        = false := by
      rw [hw1]
    have hst := @start_eq_notRunning (is_tunnel_running w name).2.1 name cfg env
      hw1nr
    rw [hw1] at hst
    simp only [List.nil_append] at hst
    have hre : restart_tunnel w name cfg aliveAt env
        = ((start_tunnel (is_tunnel_running w name).2.1 name cfg env).1,
           (start_tunnel (is_tunnel_running w name).2.1 name cfg env).2.1,
           (is_tunnel_running w name).2.2
             ++ (start_tunnel (is_tunnel_running w name).2.1 name cfg env).2.2) := by
      simp only [restart_tunnel]
      rw [if_neg (by simp [h])]
    rw [hre, hst, start_eq_notRunning h]

/-- Witness for the restart theorem: restarting the running tunnel of
`wPass` stops pid 77, pauses, and starts pid 90. -/
theorem restart_tunnel_spec_witness :
    (is_tunnel_running wPass "demo").1.1 = true
    ∧ (stop_tunnel (is_tunnel_running wPass "demo").2.1 "demo" aliveUntil3).1
        = true
    ∧ (restart_tunnel wPass "demo" none aliveUntil3 envUp).1 = true := by
  have hspec := (restart_tunnel_spec wPass "demo" none aliveUntil3 envUp).1 rfl
  refine ⟨rfl, hspec.1, ?_⟩
  rw [hspec.2]
  rfl

/-! ## C9: tailing logs -/

/-- C9: tail is a passive view: it returns the most recent `n` lines of
the tunnel's log file when it exists, reports log-not-found when it does
not (never started, or externally removed), and never changes the
world. -/
theorem tail_logs_spec (w : World) (name : String) (n : Nat) :
    (w.logFiles.lookup name = none → tail_logs w name n = (none, w))
    ∧ (∀ ls, w.logFiles.lookup name = some ls →
        tail_logs w name n = (some (lastN ls n), w))
    ∧ (tail_logs w name n).2 = w := by
  refine ⟨?_, ?_, ?_⟩
  · intro h
    simp [tail_logs, h]
  · intro ls h
    simp [tail_logs, h]
  · rcases h : w.logFiles.lookup name with _ | ls <;> simp [tail_logs, h]

/-- Witness for the tail theorem: the last two lines of an existing log,
and log-not-found on the empty world. -/
theorem tail_logs_spec_witness :
    wLog.logFiles.lookup "demo" = some ["a", "b", "c"]
    ∧ tail_logs wLog "demo" 2 = (some ["b", "c"], wLog)
    ∧ wEmpty.logFiles.lookup "demo" = none
    ∧ tail_logs wEmpty "demo" 2 = (none, wEmpty) :=
  ⟨rfl, (tail_logs_spec wLog "demo" 2).2.1 ["a", "b", "c"] rfl, rfl,
   (tail_logs_spec wEmpty "demo" 2).1 rfl⟩

/-! ## C10: explicitly supplied config path that does not exist -/

/-- C10 (amended): for an explicitly supplied, non-empty config path that
does not exist on the filesystem, start silently omits the config flag:
no warning is raised, no name-derived default config lookup is performed,
and the external tool is spawned without any config argument. -/
theorem start_explicit_config_missing (w : World) (name c : String)
    (env : SpawnEnv) (pid : Nat)
    (hnr : (is_tunnel_running w name).1.1 = false)
    (hne : c.isEmpty = false)
    (hex : w.configFiles.contains c = false)
    (hsp : env.res = some pid) :
    resolveConfig (is_tunnel_running w name).2.1 name (some c)
      = (some c, false, false)
    ∧ buildCmd (is_tunnel_running w name).2.1 name (some c)
        = ["cloudflared", "tunnel", "run", name]
    ∧ Ev.spawnProc ["cloudflared", "tunnel", "run", name] pid
        ∈ (start_tunnel w name (some c) env).2.2
    ∧ Ev.warnNoConfig name ∉ (start_tunnel w name (some c) env).2.2 := by
  have hex1 : ((is_tunnel_running w name).2.1).configFiles.contains c = false := by
    rw [probe_configFiles]
    exact hex
  have hrc : resolveConfig (is_tunnel_running w name).2.1 name (some c)
      = (some c, false, false) := by
    simp [resolveConfig, hne]
  have hex2 : c ∉ ((is_tunnel_running w name).2.1).configFiles := by
    simpa using hex1
  have hcmd : buildCmd (is_tunnel_running w name).2.1 name (some c)
      = ["cloudflared", "tunnel", "run", name] := by
    simp [buildCmd, hne, hex2]
  have htr : (start_tunnel w name (some c) env).2.2
      = (is_tunnel_running w name).2.2
        ++ ((if (resolveConfig (is_tunnel_running w name).2.1 name (some c)).2.1
             then [Ev.warnNoConfig name] else [])
            ++ [Ev.truncateLog name,
                Ev.spawnProc (buildCmd (is_tunnel_running w name).2.1 name
                  (resolveConfig (is_tunnel_running w name).2.1 name (some c)).1)
                  pid,
                Ev.writeRecord name (toString pid), Ev.sleepFor 2,
                Ev.reportLog name]) := by
    rw [start_eq_notRunning hnr, startAfterProbe_trace _ _ _ _ _ hsp]
  refine ⟨hrc, hcmd, ?_, ?_⟩
  · rw [htr, hrc, hcmd]
    simp
  · rw [htr, hrc]
    rcases is_tunnel_running_frame w name with ⟨_, he⟩ | ⟨_, he⟩ <;> simp [he]

/-- Witness for the amended explicit-config theorem: `/nope.yml` does not
exist, so the spawn command carries no config flag. -/
theorem start_explicit_config_missing_witness :
    ("/nope.yml".isEmpty = false)
    ∧ wCfg.configFiles.contains "/nope.yml" = false
    ∧ Ev.spawnProc ["cloudflared", "tunnel", "run", "demo"] 90
        ∈ (start_tunnel wCfg "demo" (some "/nope.yml") envUp).2.2
    ∧ Ev.warnNoConfig "demo"
        ∉ (start_tunnel wCfg "demo" (some "/nope.yml") envUp).2.2 := by
  have hspec := start_explicit_config_missing wCfg "demo" "/nope.yml" envUp 90
    rfl rfl rfl rfl
  exact ⟨rfl, rfl, hspec.2.2.1, hspec.2.2.2⟩

/-- Counterexample to C10 as stated: the explicitly supplied config path
`""` does not exist on the filesystem, yet Python's truthiness test sends
it down the default-lookup branch: the name-derived default config is
looked up and, existing in `wCfg`, is passed to the spawn via
`--config`. -/
theorem start_explicit_config_cex :
    wCfg.configFiles.contains "" = false
    ∧ (resolveConfig wCfg "demo" (some "")).2.2 = true
    ∧ Ev.spawnProc
        ["cloudflared", "tunnel", "--config", defaultConfigPath "demo",
         "run", "demo"] 90
        ∈ (start_tunnel wCfg "demo" (some "") envUp).2.2 := by
  refine ⟨rfl, rfl, ?_⟩
  decide

end TunnelManager
